import Mathlib

/-!
Verification of the Ray Train lightning-integration snapshot.

Shallow embedding of:
- `python/ray/train/_internal/_state/state_manager.py` (`TrainRunStateManager`)
- `python/ray/train/lightning/lightning_utils.py` (`RayModelCheckpoint`,
  `RayLightningEnvironment`, `prepare_trainer`)
- `python/ray/train/lightning/_lightning_utils.py` (`RayEnvironment`)
- `python/ray/train/lightning/lightning_checkpoint.py` (`LightningCheckpoint`)
- `python/ray/train/lightning/lightning_trainer.py` (`LightningTrainer`)

Python machine-level effects (remote calls, the filesystem, the process
environment) are made explicit as arguments and returned values; fallible
code returns `Option`/`Except`.
-/

namespace RayTrain

/-! ## Run-state reporter: `state_manager.py` -/

/-- `TrainWorkerInfo` schema: one immutable identity snapshot per worker. -/
structure TrainWorkerInfo where
  world_rank : Nat
  local_rank : Nat
  node_rank : Nat
  actor_id : String
  node_id : String
  node_ip : String
  gpu_ids : List Nat
  pid : Nat
  deriving Repr, DecidableEq

/-- `TrainDatasetInfo` schema: identifies a dataset shard lineage. -/
structure TrainDatasetInfo where
  name : String
  plan_name : String
  plan_uuid : String
  deriving Repr, DecidableEq

/-- `TrainRunInfo` schema: the single record sent to the registry actor. -/
structure TrainRunInfo where
  id : String
  name : String
  trainer_actor_id : String
  workers : List TrainWorkerInfo
  datasets : List TrainDatasetInfo
  deriving Repr, DecidableEq

/-- The `_plan` attributes read off each dataset by `register_train_run`. -/
structure DatasetPlan where
  plan_name : String
  plan_uuid : String
  deriving Repr, DecidableEq

/-- A resolved identity-collection future: either the worker's
`TrainWorkerInfo` or the exception string it raised. -/
abbrev WorkerFuture := Except String TrainWorkerInfo

/-- Modelled from the spec: `ray.train._internal.utils.check_for_failure` is
not part of this snapshot. Per the spec it waits on all futures and fails the
whole collection on any failure: success iff every future succeeded, and on
failure the exception is surfaced for the log message. -/
def check_for_failure (futures : List WorkerFuture) : Bool × Option String :=
  (futures.all fun f => f.toOption.isSome,
   (futures.filterMap fun f =>
     match f with
     | .error e => some e
     | .ok _ => none).head?)

/-- `ray.get` on the list of identity-collection futures: the list of all
results when every future succeeded, `none` when some future raised (the
code only reaches its `ray.get` call after `check_for_failure` succeeded). -/
def rayGet : List WorkerFuture → Option (List TrainWorkerInfo)
  | [] => some []
  | .error _ :: _ => none
  | .ok w :: fs => (rayGet fs).map (w :: ·)

/-- Outcome of `TrainRunStateManager.register_train_run`: `sent` is the
`TrainRunInfo` message fired at the state actor (`none` when no message was
sent), and `logged_error` records whether the error branch logged. The
Python function itself always returns `None` and raises nothing, which the
embedding reflects by being total. -/
structure RegisterResult where
  sent : Option TrainRunInfo
  logged_error : Bool
  deriving Repr, DecidableEq

/-- `TrainRunStateManager.register_train_run`. The per-worker remote calls
are represented by their resolved futures; `datasets` is the name-keyed
dict of datasets. On any failed future it logs and aborts; otherwise it
sorts the collected worker infos by `world_rank` (Python's stable `sorted`,
embedded as `List.mergeSort`), builds the `TrainRunInfo`, and fires it at
the state actor without awaiting an acknowledgement. -/
def register_train_run (run_id run_name trainer_actor_id : String)
    (datasets : List (String × DatasetPlan))
    (futures : List WorkerFuture) : RegisterResult :=
  let res := check_for_failure futures
  if res.1 = false then
    { sent := none, logged_error := true }
  else
    match rayGet futures with
    | none => { sent := none, logged_error := true }
    | some worker_info_list =>
      let worker_info_sorted :=
        worker_info_list.mergeSort fun a b => decide (a.world_rank ≤ b.world_rank)
      let dataset_info_list := datasets.map fun nds =>
        { name := nds.1, plan_name := nds.2.plan_name, plan_uuid := nds.2.plan_uuid :
          TrainDatasetInfo }
      let train_run_info : TrainRunInfo :=
        { id := run_id, name := run_name, trainer_actor_id := trainer_actor_id,
          workers := worker_info_sorted, datasets := dataset_info_list }
      { sent := some train_run_info, logged_error := false }

/-! ## Checkpoint relay metrics: `lightning_utils.py`, `RayModelCheckpoint._session_report` -/

/-- The constant `LIGHTNING_REPORT_STAGE_KEY` from `lightning_utils.py`. -/
def LIGHTNING_REPORT_STAGE_KEY : String := "_report_on"

/-- A Python value as it may appear in `self._monitor_candidates(trainer)`:
a `torch.Tensor` (with its list of elements), a plain Python number, or any
other (non-tensor, non-scalar) object. -/
inductive PyVal where
  | tensor (elems : List Int)
  | num (x : Int)
  | other (tag : String)
  deriving Repr, DecidableEq

/-- `torch.Tensor.item()`: the element of a one-element tensor; raises
(`none`) on any other shape. -/
def tensorItem : List Int → Option Int
  | [x] => some x
  | _ => none

/-- A value of the metrics dict passed to `session.report`. -/
inductive ReportedVal where
  | str (s : String)
  | num (x : Int)
  deriving Repr, DecidableEq

/-- The `for k, v in self._monitor_candidates(trainer).items()` loop body of
`_session_report`: only `torch.Tensor` values are kept, each replaced by
`v.item()`; `none` when `.item()` raises. `acc` is the metrics dict built so
far (an association list; candidate keys are fresh relative to the stage
key, so insertion is appending). -/
def metricsLoop :
    List (String × PyVal) → List (String × ReportedVal) →
      Option (List (String × ReportedVal))
  | [], acc => some acc
  | (k, PyVal.tensor es) :: rest, acc =>
    match tensorItem es with
    | none => none
    | some x => metricsLoop rest (acc ++ [(k, .num x)])
  | (_, PyVal.num _) :: rest, acc => metricsLoop rest acc
  | (_, PyVal.other _) :: rest, acc => metricsLoop rest acc

/-- The metrics dict transmitted by `_session_report`: it starts as
`{LIGHTNING_REPORT_STAGE_KEY: stage}` and is filled by `metricsLoop`. -/
def buildReportMetrics (stage : String) (candidates : List (String × PyVal)) :
    Option (List (String × ReportedVal)) :=
  metricsLoop candidates [(LIGHTNING_REPORT_STAGE_KEY, .str stage)]

/-- The transformation stated by the spec sentence: each tensor scalar is
coerced to a plain number, each non-scalar value is dropped, and every
other value (in particular a plain number) is kept unaltered. -/
def specClaimedMetrics (candidates : List (String × PyVal)) :
    List (String × ReportedVal) :=
  candidates.filterMap fun kv =>
    match kv.2 with
    | .tensor es => (tensorItem es).map fun x => (kv.1, ReportedVal.num x)
    | .num x => some (kv.1, .num x)
    | .other _ => none

/-- The claim of C3 as stated, for one candidates dict: the transmitted
metrics are the stage marker followed by the spec-claimed transformation of
the candidates. -/
def claimC3Statement (stage : String) (candidates : List (String × PyVal)) : Prop :=
  buildReportMetrics stage candidates =
    some ((LIGHTNING_REPORT_STAGE_KEY, ReportedVal.str stage) ::
      specClaimedMetrics candidates)

/-- What the code actually does to the candidates: keep exactly the tensor
values, each coerced via `.item()`; drop every non-tensor value, plain
numbers included. -/
def codeMetricsTransform (candidates : List (String × PyVal)) :
    List (String × ReportedVal) :=
  candidates.filterMap fun kv =>
    match kv.2 with
    | .tensor es => (tensorItem es).map fun x => (kv.1, ReportedVal.num x)
    | _ => none

/-- Every tensor value among the candidates is a scalar (one element), so
no `.item()` call raises. -/
def allTensorsScalar (candidates : List (String × PyVal)) : Bool :=
  candidates.all fun kv =>
    match kv.2 with
    | .tensor es => (tensorItem es).isSome
    | _ => true

/-! ## Checkpoint relay dedup flag: `RayModelCheckpoint` -/

/-- An atomic event seen by the relay callback of one worker:
`write` is a call to the `_save_last_checkpoint` override (the underlying
library just persisted a checkpoint; the override sets
`self.is_checkpoint_step = True` after calling `super()`), and `hookEnd` is
the tail of one of the three hook overrides (`on_train_batch_end`,
`on_train_epoch_end`, `on_validation_end`), which calls `_session_report`.
A hook invocation whose `super()` call saved a checkpoint shows up as a
`write` followed by a `hookEnd`. -/
inductive RelayEvent where
  | write
  | hookEnd
  deriving Repr, DecidableEq

/-- Run the relay over a list of events starting from the given
`is_checkpoint_step` flag, returning for each event whether
`session.report` fired there: a `write` never reports and sets the flag; a
`hookEnd` runs `_session_report`, which returns early when the flag is
down and otherwise reports and clears the flag (so after a `hookEnd` the
flag is down either way). -/
def relaySteps (flag : Bool) : List RelayEvent → List Bool
  | [] => []
  | .write :: es => false :: relaySteps true es
  | .hookEnd :: es => flag :: relaySteps false es

/-- The report trace of a relay whose `setup` just ran
(`self.is_checkpoint_step = False`). -/
def relayReports (events : List RelayEvent) : List Bool :=
  relaySteps false events

/-- Whether `session.report` fired at position `i` of the event trace. -/
def reportedAt (events : List RelayEvent) (i : Nat) : Bool :=
  (relayReports events).getD i false

/-! ## Python classes of the strategies, environments, callbacks and modules -/

/-- The Python classes the embedded code inspects with `isinstance` /
`issubclass`, third-party bases included, plus representative user-defined
subclasses and unrelated classes. -/
inductive PyTy where
  | Strategy
  | ParallelStrategy
  | DDPStrategy
  | FSDPStrategy
  | DeepSpeedStrategy
  | RayDDPStrategy
  | RayFSDPStrategy
  | RayDeepSpeedStrategy
  | UserRayDDPStrategy
  | SingleDeviceStrategy
  | ClusterEnvironment
  | LightningEnvironment
  | RayLightningEnvironment
  | SLURMEnvironment
  | Callback
  | Checkpoint
  | ModelCheckpoint
  | RayModelCheckpoint
  | UserModelCheckpoint
  | LightningModule
  | UserLightningModule
  | NonModule
  deriving Repr, DecidableEq

/-- Method-resolution order of each class (the class itself first, then its
bases): `RayDDPStrategy <: DDPStrategy`, `RayFSDPStrategy <: FSDPStrategy`,
`RayDeepSpeedStrategy <: DeepSpeedStrategy <: DDPStrategy`,
`RayLightningEnvironment <: LightningEnvironment <: ClusterEnvironment`,
`RayModelCheckpoint <: ModelCheckpoint <: Checkpoint <: Callback`, and the
user classes subclass the corresponding Ray or library class. -/
def mro : PyTy → List PyTy
  | .Strategy => [.Strategy]
  | .ParallelStrategy => [.ParallelStrategy, .Strategy]
  | .DDPStrategy => [.DDPStrategy, .ParallelStrategy, .Strategy]
  | .FSDPStrategy => [.FSDPStrategy, .ParallelStrategy, .Strategy]
  | .DeepSpeedStrategy => [.DeepSpeedStrategy, .DDPStrategy, .ParallelStrategy, .Strategy]
  | .RayDDPStrategy => [.RayDDPStrategy, .DDPStrategy, .ParallelStrategy, .Strategy]
  | .RayFSDPStrategy => [.RayFSDPStrategy, .FSDPStrategy, .ParallelStrategy, .Strategy]
  | .RayDeepSpeedStrategy =>
    [.RayDeepSpeedStrategy, .DeepSpeedStrategy, .DDPStrategy, .ParallelStrategy, .Strategy]
  | .UserRayDDPStrategy =>
    [.UserRayDDPStrategy, .RayDDPStrategy, .DDPStrategy, .ParallelStrategy, .Strategy]
  | .SingleDeviceStrategy => [.SingleDeviceStrategy, .Strategy]
  | .ClusterEnvironment => [.ClusterEnvironment]
  | .LightningEnvironment => [.LightningEnvironment, .ClusterEnvironment]
  | .RayLightningEnvironment =>
    [.RayLightningEnvironment, .LightningEnvironment, .ClusterEnvironment]
  | .SLURMEnvironment => [.SLURMEnvironment, .ClusterEnvironment]
  | .Callback => [.Callback]
  | .Checkpoint => [.Checkpoint, .Callback]
  | .ModelCheckpoint => [.ModelCheckpoint, .Checkpoint, .Callback]
  | .RayModelCheckpoint => [.RayModelCheckpoint, .ModelCheckpoint, .Checkpoint, .Callback]
  | .UserModelCheckpoint => [.UserModelCheckpoint, .ModelCheckpoint, .Checkpoint, .Callback]
  | .LightningModule => [.LightningModule]
  | .UserLightningModule => [.UserLightningModule, .LightningModule]
  | .NonModule => [.NonModule]

/-- `isinstance(x, target)` for an object of class `ty` (equally
`issubclass(ty, target)`): the target occurs in the MRO of `ty`. -/
def isinst (ty target : PyTy) : Bool :=
  (mro ty).contains target

/-! ## Reporting-rank election and checkpoint copy: `RayModelCheckpoint` -/

/-- `MODEL_KEY` from `ray.air.constants`: the fixed name of the model file
inside a checkpoint directory. -/
def MODEL_KEY : String := "model"

/-- What `self.last_model_path` points to on a rank's local disk: a file
checkpoint or a directory checkpoint. -/
inductive CkptSource where
  | file
  | directory
  deriving Repr, DecidableEq

/-- The election in `RayModelCheckpoint.setup`: for a `DeepSpeedStrategy`
each node has a unique set of parameter/optimizer shards, so the local
rank 0 workers report; for DDP and FSDP only the global rank 0 worker
saves the full model and reports. -/
def is_report_rank (strategyTy : PyTy) (world_rank local_rank : Nat) : Bool :=
  if isinst strategyTy .DeepSpeedStrategy then local_rank == 0 else world_rank == 0

/-- The guarded copy of `_session_report` on one rank: the entries of the
fresh temporary directory after `shutil.copytree` (directory checkpoint)
or `shutil.copy` (file checkpoint) into `tmpdir/MODEL_KEY`, which only the
reporting rank performs. -/
def session_report_tmpdir (report_rank : Bool) (src : CkptSource) : List String :=
  if report_rank then
    match src with
    | .directory => [ MODEL_KEY ]
    | .file => [ MODEL_KEY ]
  else []

/-- The outcome of `_session_report` past its guard on one rank: whether
`session.report` was called, and the entries of the temporary directory it
wrapped as the reported checkpoint. -/
structure RankReport where
  reported : Bool
  checkpoint_entries : List String
  deriving Repr, DecidableEq

/-- One rank's `_session_report` past the `is_checkpoint_step` guard:
every rank reports; only the rank elected by `setup` has copied its model
into the temporary directory. -/
def rank_session_report (strategyTy : PyTy) (world_rank local_rank : Nat)
    (src : CkptSource) : RankReport :=
  { reported := true,
    checkpoint_entries :=
      session_report_tmpdir (is_report_rank strategyTy world_rank local_rank) src }

/-- Strategies whose checkpoints are sharded per node, each node holding a
unique set of parameter and optimizer states: the DeepSpeed family, per
the comment in `RayModelCheckpoint.setup`. DDP replicates the model and
Lightning's FSDP saves the consolidated full model on global rank 0, so
both fall in the full-model category. -/
def shardedPerNode (strategyTy : PyTy) : Bool :=
  isinst strategyTy .DeepSpeedStrategy

/-- The spec's elected reporting rank: local rank 0 per node for the
per-node-sharded strategies, global rank 0 for the full-model ones. -/
def electedReportRank (strategyTy : PyTy) (world_rank local_rank : Nat) : Prop :=
  (shardedPerNode strategyTy = true ∧ local_rank = 0) ∨
  (shardedPerNode strategyTy = false ∧ world_rank = 0)

/-! ## `prepare_trainer`: `lightning_utils.py` -/

/-- A `pl.Trainer` as `prepare_trainer` inspects it: the class of
`trainer.strategy`, the class of `trainer.strategy.cluster_environment`
when the attribute is set, and the classes of the checkpoint callbacks. -/
structure PLTrainer where
  strategyTy : PyTy
  cluster_environment : Option PyTy
  checkpoint_callbacks : List PyTy
  deriving Repr, DecidableEq

/-- `prepare_trainer`, faithful to the source: its `valid_strategy_class`
list reads `[RayDDPStrategy, RayFSDPStrategy, RayFSDPStrategy]`. An
`Except.error` is a raised `RuntimeError`. -/
def prepare_trainer (trainer : PLTrainer) : Except String PLTrainer :=
  let valid_strategy_class :=
    [PyTy.RayDDPStrategy, PyTy.RayFSDPStrategy, PyTy.RayFSDPStrategy]
  if !(valid_strategy_class.any fun cls => isinst trainer.strategyTy cls) then
    Except.error "Invalid strategy class"
  else if (match trainer.cluster_environment with
      | some envTy => !(isinst envTy PyTy.RayLightningEnvironment)
      | none => false) then
    Except.error "Invalid cluster environment plugin"
  else if 1 < (trainer.checkpoint_callbacks.filter fun cb =>
      isinst cb PyTy.RayModelCheckpoint).length then
    Except.error "You can provide at most one RayModelCheckpoint callbacks"
  else
    Except.ok trainer

/-- The configuration validity stated by the spec for C6: the strategy is
one of the three Ray strategy classes or a subclass, a cluster environment
when present is a `RayLightningEnvironment`, and at most one
`RayModelCheckpoint` callback is given. -/
def specValidTrainer (trainer : PLTrainer) : Bool :=
  ([PyTy.RayDDPStrategy, PyTy.RayFSDPStrategy, PyTy.RayDeepSpeedStrategy].any
    fun cls => isinst trainer.strategyTy cls) &&
  (match trainer.cluster_environment with
   | some envTy => isinst envTy PyTy.RayLightningEnvironment
   | none => true) &&
  decide ((trainer.checkpoint_callbacks.filter fun cb =>
    isinst cb PyTy.RayModelCheckpoint).length ≤ 1)

/-! ## `LightningCheckpoint.get_model` and `from_path`: `lightning_checkpoint.py` -/

/-- A loaded Lightning module, the result of the training library's
`load_from_checkpoint` applied to the checkpoint file's bytes (the
deserialization itself is a black box of the library). -/
inductive PLModule where
  | loadedFrom (content : String)
  deriving Repr, DecidableEq

/-- The exception classes `get_model` raises. -/
inductive GetModelError where
  | valueError (msg : String)
  | runtimeError (msg : String)
  deriving Repr, DecidableEq

/-- `LightningCheckpoint.get_model`: `model_class_is_class` is
`inspect.isclass(model_class)`; `checkpoint_dir` is the materialized
checkpoint directory (filename to file bytes) yielded by
`self.as_directory()`. -/
def get_model (model_class_is_class : Bool)
    (checkpoint_dir : List (String × String)) : Except GetModelError PLModule :=
  if !model_class_is_class then
    Except.error (.valueError
      "'model_class' must be a class, not an instantiated Lightning trainer.")
  else
    match checkpoint_dir.lookup MODEL_KEY with
    | none => Except.error (.runtimeError
        "File not found under the checkpoint directory.")
    | some content => Except.ok (.loadedFrom content)

/-- A filesystem node at the path handed to `from_path`. -/
inductive FsNode where
  | file (content : String)
  | dirNode (entries : List (String × String))
  deriving Repr, DecidableEq

/-- The exception classes `from_path` raises. -/
inductive FromPathError where
  | assertionError (msg : String)
  | valueError (msg : String)
  deriving Repr, DecidableEq

/-- The fixed artifact name used by the external
`ray.air._internal.checkpointing.save_preprocessor_to_dir`, which
serializes the fitted preprocessor into the directory (a black box of the
host package; only the entry it adds matters here). -/
def PREPROCESSOR_FILE : String := "preprocessor.pkl"

/-- External `save_preprocessor_to_dir`: adds the serialized preprocessor
to the directory under its fixed artifact name. -/
def save_preprocessor_to_dir (preprocessor : String)
    (cache_dir : List (String × String)) : List (String × String) :=
  cache_dir ++ [(PREPROCESSOR_FILE, preprocessor)]

/-- `LightningCheckpoint.from_path`: `none` means the path does not exist
(the leading `assert` fires); a directory raises `ValueError`; a file is
copied into a fresh `tempfile.mkdtemp()` cache directory under
`MODEL_KEY`, the preprocessor is serialized alongside when given, and the
checkpoint wrapping that cache directory is returned. -/
def from_path (node : Option FsNode) (preprocessor : Option String) :
    Except FromPathError (List (String × String)) :=
  match node with
  | none => Except.error (.assertionError "Lightning checkpoint doesn't exists!")
  | some (.dirNode _) => Except.error (.valueError
      "from_path expects a file path, but the given path is a directory.")
  | some (.file content) =>
    let cache_dir : List (String × String) := []
    let cache_dir := cache_dir ++ [(MODEL_KEY, content)]
    let cache_dir :=
      match preprocessor with
      | some p => save_preprocessor_to_dir p cache_dir
      | none => cache_dir
    Except.ok cache_dir

/-! ## `LightningTrainer.__init__`: `lightning_trainer.py` -/

/-- The `lightning_module` argument as `inspect` sees it: a class (with
its MRO) or some non-class object such as a module instance. -/
inductive PyArg where
  | pyCls (ty : PyTy)
  | nonClassObj (tag : String)
  deriving Repr, DecidableEq

/-- `inspect.isclass`. -/
def isclass : PyArg → Bool
  | .pyCls _ => true
  | .nonClassObj _ => false

/-- `issubclass(lightning_module, pl.LightningModule)`, `false` on a
non-class (the code only evaluates it after the `isclass` check). -/
def argIsLightningModuleSub : PyArg → Bool
  | .pyCls ty => isinst ty .LightningModule
  | .nonClassObj _ => false

/-- The `train_loop_config` dict keys, as in `lightning_trainer.py`. -/
def LIGHTNING_MODULE_KEY : String := "_lightning_module"

def LIGHTNING_MODULE_CONFIG_KEY : String := "_lightning_module_config"

def LIGHTNING_TRAINER_CONFIG_KEY : String := "_lightning_trainer_config"

def MODEL_CHECKPOINT_CONFIG : String := "_model_checkpoint_config"

def DDP_STRATEGY_CONFIG_KEY : String := "_ddp_strategy_config"

def LIGHTNING_DATAMODULE_KEY : String := "_lightning_datamodule"

/-- `LightningTrainer._create_trainer_loop_config`: validates the
`lightning_module` argument, then assembles the `train_loop_config` dict
(modelled by its key set; each optional config contributes its key when
truthy). `Except.error` is a raised `ValueError`. -/
def _create_trainer_loop_config (lightning_module : PyArg)
    (module_config trainer_config strategy_config ckpt_config datamodule : Bool) :
    Except String (List String) :=
  if !(isclass lightning_module) then
    Except.error "'lightning_module' must be a class, not a class instance."
  else if !(argIsLightningModuleSub lightning_module) then
    Except.error "'lightning_module' must be a subclass of LightningModule"
  else
    let keys := [LIGHTNING_MODULE_KEY]
    let keys := if module_config then keys ++ [LIGHTNING_MODULE_CONFIG_KEY] else keys
    let keys := if trainer_config then keys ++ [LIGHTNING_TRAINER_CONFIG_KEY] else keys
    let keys := if strategy_config then keys ++ [DDP_STRATEGY_CONFIG_KEY] else keys
    let keys := if ckpt_config then keys ++ [ MODEL_CHECKPOINT_CONFIG ] else keys
    let keys := if datamodule then keys ++ [LIGHTNING_DATAMODULE_KEY] else keys
    Except.ok keys

/-- A constructed `LightningTrainer`: `DataParallelTrainer.__init__` only
records configuration, so no worker process exists at construction time. -/
structure LightningTrainerState where
  train_loop_config : List String
  workers_started : Bool
  deriving Repr, DecidableEq

/-- `LightningTrainer.__init__`: computes `train_loop_config` through
`_create_trainer_loop_config` before calling the parent constructor, so a
`ValueError` raised there propagates out of `__init__` and nothing is
constructed. -/
def LightningTrainer_init (lightning_module : PyArg)
    (module_config trainer_config strategy_config ckpt_config datamodule : Bool) :
    Except String LightningTrainerState :=
  match _create_trainer_loop_config lightning_module module_config trainer_config
      strategy_config ckpt_config datamodule with
  | .error e => Except.error e
  | .ok keys => Except.ok { train_loop_config := keys, workers_started := false }

/-! ## Cluster-environment shims: `RayLightningEnvironment` and `RayEnvironment` -/

/-- The live Ray AIR session of one worker, as read by the
`session.get_*` accessors. -/
structure SessionCtx where
  world_size : Nat
  world_rank : Nat
  local_rank : Nat
  node_rank : Nat
  deriving Repr, DecidableEq

/-- The observable mutable state around one shim instance: the
`_world_size` and `_global_rank` attributes inherited from the library's
`LightningEnvironment` base, and the library-global
`rank_zero_only.rank`. -/
structure EnvObservableState where
  ws_attr : Nat
  gr_attr : Nat
  rank_zero_rank : Nat
  deriving Repr, DecidableEq

/-- `RayLightningEnvironment.world_size` (`lightning_utils.py`): live from
the session, the cached attribute is never consulted. -/
def rayLightningEnv_world_size (sess : SessionCtx) (_s : EnvObservableState) : Nat :=
  sess.world_size

/-- `RayLightningEnvironment.global_rank`: live from the session. -/
def rayLightningEnv_global_rank (sess : SessionCtx) (_s : EnvObservableState) : Nat :=
  sess.world_rank

/-- `RayLightningEnvironment.local_rank`: live from the session. -/
def rayLightningEnv_local_rank (sess : SessionCtx) (_s : EnvObservableState) : Nat :=
  sess.local_rank

/-- `RayLightningEnvironment.node_rank`: live from the session. -/
def rayLightningEnv_node_rank (sess : SessionCtx) (_s : EnvObservableState) : Nat :=
  sess.node_rank

/-- `RayLightningEnvironment.set_world_size`: a `pass` body. -/
def rayLightningEnv_set_world_size (_size : Nat) (_sess : SessionCtx)
    (s : EnvObservableState) : EnvObservableState :=
  s

/-- `RayLightningEnvironment.set_global_rank`: a `pass` body. -/
def rayLightningEnv_set_global_rank (_rank : Nat) (_sess : SessionCtx)
    (s : EnvObservableState) : EnvObservableState :=
  s

/-- `RayEnvironment.world_size` (`_lightning_utils.py`): live from the
session. -/
def rayEnv_world_size (sess : SessionCtx) (_s : EnvObservableState) : Nat :=
  sess.world_size

/-- `RayEnvironment.global_rank`: live from the session. -/
def rayEnv_global_rank (sess : SessionCtx) (_s : EnvObservableState) : Nat :=
  sess.world_rank

/-- `RayEnvironment.local_rank`: live from the session. -/
def rayEnv_local_rank (sess : SessionCtx) (_s : EnvObservableState) : Nat :=
  sess.local_rank

/-- `RayEnvironment.node_rank`: live from the session. -/
def rayEnv_node_rank (sess : SessionCtx) (_s : EnvObservableState) : Nat :=
  sess.node_rank

/-- `RayEnvironment.set_world_size`: overwrites the cached `_world_size`
attribute with the live session value, ignoring the argument. -/
def rayEnv_set_world_size (_size : Nat) (sess : SessionCtx)
    (s : EnvObservableState) : EnvObservableState :=
  { s with ws_attr := sess.world_size }

/-- `RayEnvironment.set_global_rank`: overwrites the cached `_global_rank`
attribute with the live session world rank and sets the library-global
`rank_zero_only.rank` to the argument. -/
def rayEnv_set_global_rank (rank : Nat) (sess : SessionCtx)
    (s : EnvObservableState) : EnvObservableState :=
  { s with gr_attr := sess.world_rank, rank_zero_rank := rank }

lemma rayGet_of_all_ok (futures : List WorkerFuture)
    (h : ∀ f ∈ futures, f.toOption.isSome) :
    ∃ l, rayGet futures = some l ∧ l.length = futures.length := by
  induction futures with
  | nil => exact ⟨[], rfl, rfl⟩
  | cons f fs ih =>
    obtain ⟨l, hl, hlen⟩ := ih fun g hg => h g (List.mem_cons_of_mem _ hg)
    match f with
    | .error e => simpa [Except.toOption] using h (.error e) (List.mem_cons_self _ _)
    | .ok w => exact ⟨w :: l, by simp [rayGet, hl], by simp [hlen]⟩

end RayTrain

namespace RayTrain

/-- C1: if every identity-collection future succeeded, `register_train_run`
sends a `TrainRunInfo` whose `workers` list has one entry per worker and is
sorted ascending by `world_rank`. -/
theorem register_train_run_sorted_complete
    (run_id run_name trainer_actor_id : String)
    (datasets : List (String × DatasetPlan)) (futures : List WorkerFuture)
    (h : ∀ f ∈ futures, f.toOption.isSome) :
    ∃ info, (register_train_run run_id run_name trainer_actor_id datasets
        futures).sent = some info ∧
      info.workers.length = futures.length ∧
      info.workers.Pairwise fun a b => a.world_rank ≤ b.world_rank := by
  have hsucc : (check_for_failure futures).1 = true := by
    simpa [check_for_failure, List.all_eq_true] using h
  obtain ⟨l, hmap, hlen⟩ := rayGet_of_all_ok futures h
  refine ⟨{ id := run_id, name := run_name, trainer_actor_id := trainer_actor_id,
            workers := l.mergeSort fun a b => decide (a.world_rank ≤ b.world_rank),
            datasets := datasets.map fun nds =>
              ⟨nds.1, nds.2.plan_name, nds.2.plan_uuid⟩ }, ?_, ?_, ?_⟩
  · simp [register_train_run, hsucc, hmap]
  · exact (List.mergeSort_perm l fun a b =>
      decide (a.world_rank ≤ b.world_rank)).length_eq.trans hlen
  · refine List.Pairwise.imp (fun hab => of_decide_eq_true hab) ?_
    exact List.sorted_mergeSort
      (fun a b c hab hbc => by
        exact decide_eq_true (Nat.le_trans (of_decide_eq_true hab) (of_decide_eq_true hbc)))
      (fun a b => by
        rcases Nat.le_total a.world_rank b.world_rank with hle | hle <;>
          simp [decide_eq_true hle])
      l

/-- Witness for C1 at a concrete three-worker run with out-of-order ranks. -/
theorem register_train_run_sorted_complete_witness :
    ∃ info, (register_train_run "r1" "run" "actor"
        [("train", ⟨"plan", "uuid"⟩)]
        [Except.ok ⟨2, 0, 1, "a2", "n1", "ip1", [2], 12⟩,
         Except.ok ⟨0, 0, 0, "a0", "n0", "ip0", [0], 10⟩,
         Except.ok ⟨1, 1, 0, "a1", "n0", "ip0", [1], 11⟩]).sent = some info ∧
      info.workers.length = 3 ∧
      info.workers.Pairwise fun a b => a.world_rank ≤ b.world_rank :=
  register_train_run_sorted_complete "r1" "run" "actor" _ _ (by decide)

/-- C2: if any identity-collection future failed, `register_train_run`
sends no message to the registry actor and logs the error; the embedding
is total (the Python code returns `None` without raising) and makes a
single attempt (no retry appears in the definition). -/
theorem register_train_run_aborts_on_failure
    (run_id run_name trainer_actor_id : String)
    (datasets : List (String × DatasetPlan)) (futures : List WorkerFuture)
    (e : String) (h : Except.error e ∈ futures) :
    (register_train_run run_id run_name trainer_actor_id datasets
        futures).sent = none ∧
    (register_train_run run_id run_name trainer_actor_id datasets
        futures).logged_error = true := by
  have hfail : (check_for_failure futures).1 = false := by
    simp only [check_for_failure, List.all_eq_true, not_forall]
    simp only [Bool.eq_false_iff, ne_eq, List.all_eq_true, not_forall]
    exact ⟨Except.error e, h, by simp [Except.toOption]⟩
  constructor <;> simp [register_train_run, hfail]

/-- Witness for C2: one of two futures failed, so nothing is sent. -/
theorem register_train_run_aborts_on_failure_witness :
    (register_train_run "r1" "run" "actor" []
        [Except.ok ⟨0, 0, 0, "a0", "n0", "ip0", [], 10⟩,
         Except.error "worker died"]).sent = none ∧
    (register_train_run "r1" "run" "actor" []
        [Except.ok ⟨0, 0, 0, "a0", "n0", "ip0", [], 10⟩,
         Except.error "worker died"]).logged_error = true :=
  register_train_run_aborts_on_failure "r1" "run" "actor" [] _ "worker died"
    (List.Mem.tail _ (List.Mem.head _))

lemma metricsLoop_eq (candidates : List (String × PyVal))
    (acc : List (String × ReportedVal))
    (h : allTensorsScalar candidates = true) :
    metricsLoop candidates acc = some (acc ++ codeMetricsTransform candidates) := by
  induction candidates generalizing acc with
  | nil => simp [metricsLoop, codeMetricsTransform]
  | cons kv rest ih =>
    obtain ⟨k, v⟩ := kv
    simp only [allTensorsScalar, List.all_cons, Bool.and_eq_true] at h
    have hrest : allTensorsScalar rest = true := h.2
    match v with
    | .tensor es =>
      obtain ⟨x, hx⟩ := Option.isSome_iff_exists.mp h.1
      show (match tensorItem es with
        | none => none
        | some x => metricsLoop rest (acc ++ [(k, ReportedVal.num x)])) = _
      rw [hx]
      show metricsLoop rest (acc ++ [(k, ReportedVal.num x)]) = _
      rw [ih _ hrest]
      simp [codeMetricsTransform, hx]
    | .num x =>
      rw [metricsLoop, ih _ hrest]
      simp [codeMetricsTransform]
    | .other t =>
      rw [metricsLoop, ih _ hrest]
      simp [codeMetricsTransform]

/-- Counterexample to C3: a plain-number metric value (neither a tensor
scalar nor a non-scalar) is removed by the code, though the claim says no
other value is altered or removed. -/
theorem session_report_metrics_claim_false :
    ¬ claimC3Statement "train_batch_end" [("lr", PyVal.num 5)] := by
  unfold claimC3Statement
  decide

/-- C3 amended: whenever every tensor value among the monitor candidates is
a scalar, the transmitted metrics are the stage marker followed by exactly
the tensor values, each coerced to a plain number via `.item()`; every
non-tensor value, plain numbers included, is dropped. -/
theorem session_report_metrics_amended (stage : String)
    (candidates : List (String × PyVal))
    (h : allTensorsScalar candidates = true) :
    buildReportMetrics stage candidates =
      some ((LIGHTNING_REPORT_STAGE_KEY, ReportedVal.str stage) ::
        codeMetricsTransform candidates) := by
  rw [buildReportMetrics, metricsLoop_eq _ _ h]
  simp

/-- Witness for the amended C3 at a dict holding a scalar tensor, a plain
number and a non-scalar value. -/
theorem session_report_metrics_amended_witness :
    buildReportMetrics "validation_end"
        [("loss", PyVal.tensor [3]), ("lr", PyVal.num 5),
         ("conf", PyVal.other "matrix")] =
      some [(LIGHTNING_REPORT_STAGE_KEY, ReportedVal.str "validation_end"),
        ("loss", ReportedVal.num 3)] :=
  session_report_metrics_amended "validation_end" _ (by decide)

lemma getD_default_eq {α : Type} (t : List α) (i : Nat) (hi : i < t.length)
    (d d' : α) : t.getD i d = t.getD i d' := by
  rw [List.getD_eq_getElem _ _ hi, List.getD_eq_getElem _ _ hi]

lemma relaySteps_getD (t : List RelayEvent) (flag : Bool) (i : Nat) :
    (relaySteps flag t).getD i false =
      if i = 0 then decide (t.getD 0 .write = .hookEnd) && flag
      else decide (t.getD i .write = .hookEnd) &&
        decide (t.getD (i - 1) .hookEnd = .write) := by
  induction t generalizing flag i with
  | nil => rcases i with _ | j <;> simp [relaySteps]
  | cons e es ih =>
    match e with
    | .write =>
      rcases i with _ | j
      · simp [relaySteps]
      · rw [show relaySteps flag (.write :: es) = false :: relaySteps true es from rfl,
          List.getD_cons_succ, ih true j]
        rcases j with _ | j' <;> simp
    | .hookEnd =>
      rcases i with _ | j
      · simp [relaySteps]
      · rw [show relaySteps flag (.hookEnd :: es) = flag :: relaySteps false es from rfl,
          List.getD_cons_succ, ih false j]
        rcases j with _ | j' <;> simp

lemma count_relaySteps_le (t : List RelayEvent) (flag : Bool) :
    (relaySteps flag t).count true ≤ (if flag then 1 else 0) + t.count .write := by
  induction t generalizing flag with
  | nil => simp [relaySteps]
  | cons e es ih =>
    have h1 : (relaySteps true es).count true ≤ 1 + es.count .write := by
      simpa using ih true
    have h0 : (relaySteps false es).count true ≤ es.count .write := by
      simpa using ih false
    match e with
    | .write =>
      rw [show relaySteps flag (.write :: es) = false :: relaySteps true es from rfl,
        List.count_cons_of_ne (by simp : (true : Bool) ≠ false),
        List.count_cons_self]
      cases flag <;> simp <;> omega
    | .hookEnd =>
      rw [show relaySteps flag (.hookEnd :: es) = flag :: relaySteps false es from rfl,
        List.count_cons_of_ne
          (by simp : RelayEvent.write ≠ RelayEvent.hookEnd)]
      cases flag
      · rw [List.count_cons_of_ne (by simp : (true : Bool) ≠ false)]
        simpa using h0
      · rw [List.count_cons_self]
        simp only [if_pos]
        omega

/-- C4: over every event trace of a relay starting in the post-`setup`
state, (1) `session.report` fires at position `i` iff that position is a
hook tail and some checkpoint write happened at an earlier position with no
report fired in between — never on a hook invocation without an
intervening checkpoint write; and (2) the flag-clearing after each report
makes the number of reports at most the number of checkpoint writes, so
the same checkpoint is reported at most once. -/
theorem relay_report_guard (t : List RelayEvent) (i : Nat) (hi : i < t.length) :
    (reportedAt t i = true ↔
      t.getD i .write = .hookEnd ∧
        ∃ j, j < i ∧ t.getD j .hookEnd = .write ∧
          ∀ k, j ≤ k → k < i → reportedAt t k = false) ∧
    (relayReports t).count true ≤ t.count .write := by
  refine ⟨⟨?_, ?_⟩, ?_⟩
  · intro hrep
    rcases i with _ | n
    · rw [reportedAt, relayReports, relaySteps_getD] at hrep
      simp at hrep
    · rw [reportedAt, relayReports, relaySteps_getD,
        if_neg (by omega : ¬ (n + 1 = 0))] at hrep
      simp only [Nat.succ_sub_one, Bool.and_eq_true, decide_eq_true_eq] at hrep
      refine ⟨hrep.1, n, Nat.lt_succ_self n, hrep.2, ?_⟩
      intro k hk1 hk2
      have hk : k = n := by omega
      subst hk
      rcases k with _ | m
      · rw [reportedAt, relayReports, relaySteps_getD]
        simp
      · rw [reportedAt, relayReports, relaySteps_getD,
          if_neg (by omega : ¬ (m + 1 = 0))]
        have hb : m + 1 < t.length := by omega
        have hw : t.getD (m + 1) RelayEvent.write = RelayEvent.write := by
          rw [getD_default_eq t (m + 1) hb RelayEvent.write RelayEvent.hookEnd]
          exact hrep.2
        rw [hw]
        simp
  · rintro ⟨hie, j, hji, hjw, hnone⟩
    rcases i with _ | n
    · omega
    · rw [reportedAt, relayReports, relaySteps_getD,
        if_neg (by omega : ¬ (n + 1 = 0))]
      simp only [Nat.succ_sub_one, Bool.and_eq_true, decide_eq_true_eq]
      refine ⟨hie, ?_⟩
      by_contra hne
      have hjn : j ≤ n := by omega
      have hPj : t.getD j RelayEvent.hookEnd = RelayEvent.write ∧ j ≤ j :=
        ⟨hjw, le_refl j⟩
      have hg := Nat.findGreatest_spec
        (P := fun k => t.getD k RelayEvent.hookEnd = RelayEvent.write ∧ j ≤ k)
        hjn hPj
      set g := Nat.findGreatest
        (fun k => t.getD k RelayEvent.hookEnd = RelayEvent.write ∧ j ≤ k) n with hgdef
      have hgle : g ≤ n := Nat.findGreatest_le n
      have hgn : g ≠ n := fun h => hne (h ▸ hg.1)
      have hgsucc := Nat.findGreatest_is_greatest
        (P := fun k => t.getD k RelayEvent.hookEnd = RelayEvent.write ∧ j ≤ k)
        (Nat.lt_succ_self g) (by omega)
      have hg1 : t.getD (g + 1) RelayEvent.hookEnd ≠ RelayEvent.write := by
        intro hw
        exact hgsucc ⟨hw, by omega⟩
      have hb : g + 1 < t.length := by omega
      have hg1w : t.getD (g + 1) RelayEvent.write = RelayEvent.hookEnd := by
        rw [getD_default_eq t (g + 1) hb RelayEvent.write RelayEvent.hookEnd]
        cases hcase : t.getD (g + 1) RelayEvent.hookEnd
        · exact absurd hcase hg1
        · rfl
      have hrep1 : reportedAt t (g + 1) = true := by
        rw [reportedAt, relayReports, relaySteps_getD,
          if_neg (by omega : ¬ (g + 1 = 0))]
        simp only [Nat.succ_sub_one, Bool.and_eq_true, decide_eq_true_eq]
        exact ⟨hg1w, hg.1⟩
      have hfalse := hnone (g + 1) (by omega) (by omega)
      rw [hfalse] at hrep1
      exact Bool.noConfusion hrep1
  · simpa using count_relaySteps_le t false

/-- Witness for C4 at the trace [write, hookEnd, hookEnd], position 1: the
hook right after the write reports, and reports never outnumber writes. -/
theorem relay_report_guard_witness :
    (reportedAt [RelayEvent.write, RelayEvent.hookEnd, RelayEvent.hookEnd] 1 = true ↔
      [RelayEvent.write, RelayEvent.hookEnd, RelayEvent.hookEnd].getD 1 .write =
          .hookEnd ∧
        ∃ j, j < 1 ∧
          [RelayEvent.write, RelayEvent.hookEnd, RelayEvent.hookEnd].getD j
              .hookEnd = .write ∧
          ∀ k, j ≤ k → k < 1 →
            reportedAt [RelayEvent.write, RelayEvent.hookEnd, RelayEvent.hookEnd]
              k = false) ∧
    (relayReports [RelayEvent.write, RelayEvent.hookEnd, RelayEvent.hookEnd]).count
        true ≤
      [RelayEvent.write, RelayEvent.hookEnd, RelayEvent.hookEnd].count .write :=
  relay_report_guard [RelayEvent.write, RelayEvent.hookEnd, RelayEvent.hookEnd] 1
    (by decide)

/-- C5: in a checkpoint report, a rank's temporary directory contains the
copied model entry iff the rank is the elected reporting one — local rank
0 per node for the per-node-sharded (DeepSpeed) strategies, global rank 0
for the full-model ones — and every non-elected rank still reports, with
an empty placeholder directory holding no model file. -/
theorem checkpoint_copy_iff_elected (strategyTy : PyTy)
    (world_rank local_rank : Nat) (src : CkptSource) :
    (rank_session_report strategyTy world_rank local_rank src).reported = true ∧
    ((rank_session_report strategyTy world_rank local_rank src).checkpoint_entries
        = [ MODEL_KEY ] ↔ electedReportRank strategyTy world_rank local_rank) ∧
    ((rank_session_report strategyTy world_rank local_rank src).checkpoint_entries
        = [] ↔ ¬ electedReportRank strategyTy world_rank local_rank) := by
  refine ⟨rfl, ?_, ?_⟩ <;>
  · unfold rank_session_report session_report_tmpdir is_report_rank
      electedReportRank shardedPerNode
    by_cases hds : isinst strategyTy .DeepSpeedStrategy <;>
      by_cases hl : local_rank = 0 <;> by_cases hw : world_rank = 0 <;>
        cases src <;> simp_all [ MODEL_KEY ]

/-- C6 (code bug): a trainer whose strategy is a `RayDeepSpeedStrategy`
with no cluster-environment override and a single `RayModelCheckpoint`
satisfies every configuration check the spec states, yet `prepare_trainer`
raises, because its `valid_strategy_class` list repeats `RayFSDPStrategy`
where its own error message (and the spec) name the RayDeepSpeed
strategy. -/
theorem prepare_trainer_rejects_ray_deepspeed :
    specValidTrainer
        ⟨PyTy.RayDeepSpeedStrategy, none, [PyTy.RayModelCheckpoint]⟩ = true ∧
    prepare_trainer
        ⟨PyTy.RayDeepSpeedStrategy, none, [PyTy.RayModelCheckpoint]⟩ =
      Except.error "Invalid strategy class" := by
  exact ⟨rfl, rfl⟩

/-- C7: with a valid model class, `get_model` raises a `RuntimeError` when
the checkpoint directory misses the `MODEL_KEY` file, and returns the
model loaded from that file when it exists. -/
theorem get_model_spec (checkpoint_dir : List (String × String)) :
    (checkpoint_dir.lookup MODEL_KEY = none →
      get_model true checkpoint_dir =
        Except.error (.runtimeError
          "File not found under the checkpoint directory.")) ∧
    (∀ content, checkpoint_dir.lookup MODEL_KEY = some content →
      get_model true checkpoint_dir = Except.ok (.loadedFrom content)) := by
  constructor
  · intro h
    simp [get_model, h]
  · intro content h
    simp [get_model, h]

/-- Witness for C7: a directory without the model file errors at runtime;
one with it loads the file's contents. -/
theorem get_model_spec_witness :
    get_model true [("extra", "x")] =
      Except.error (.runtimeError
        "File not found under the checkpoint directory.") ∧
    get_model true [(MODEL_KEY, "weights")] =
      Except.ok (.loadedFrom "weights") :=
  ⟨(get_model_spec [("extra", "x")]).1 rfl,
   (get_model_spec [(MODEL_KEY, "weights")]).2 "weights" rfl⟩

/-- C8: a `lightning_module` argument that is not a class, or a class not
subclassing `pl.LightningModule` (`argIsLightningModuleSub` is false in
exactly those two cases), makes `LightningTrainer.__init__` raise a
`ValueError` out of `_create_trainer_loop_config`, so nothing is
constructed; and any successfully constructed trainer has no worker
process started at `__init__` time. -/
theorem trainer_init_rejects_bad_module (lightning_module : PyArg)
    (c1 c2 c3 c4 c5 : Bool)
    (h : argIsLightningModuleSub lightning_module = false) :
    (∃ msg, LightningTrainer_init lightning_module c1 c2 c3 c4 c5 =
      Except.error msg) ∧
    (∀ st, LightningTrainer_init lightning_module c1 c2 c3 c4 c5 =
      Except.ok st → st.workers_started = false) := by
  constructor
  · match lightning_module with
    | .nonClassObj t => exact ⟨_, rfl⟩
    | .pyCls ty =>
      refine ⟨"'lightning_module' must be a subclass of LightningModule", ?_⟩
      unfold LightningTrainer_init _create_trainer_loop_config
      simp only [argIsLightningModuleSub] at h
      simp [isclass, argIsLightningModuleSub, h]
  · intro st hst
    unfold LightningTrainer_init at hst
    cases hcfg : _create_trainer_loop_config lightning_module c1 c2 c3 c4 c5 with
    | error e =>
      rw [hcfg] at hst
      exact absurd hst (by simp)
    | ok keys =>
      rw [hcfg] at hst
      simp only [Except.ok.injEq] at hst
      subst hst
      rfl

/-- Witness for C8 at a module instance passed where a class is needed. -/
theorem trainer_init_rejects_bad_module_witness :
    (∃ msg, LightningTrainer_init (PyArg.nonClassObj "module_instance")
      false false false false false = Except.error msg) ∧
    (∀ st, LightningTrainer_init (PyArg.nonClassObj "module_instance")
      false false false false false = Except.ok st →
      st.workers_started = false) :=
  trainer_init_rejects_bad_module (PyArg.nonClassObj "module_instance")
    false false false false false rfl

/-- Counterexample to C9: on the `RayEnvironment` shim of
`_lightning_utils.py`, `set_global_rank(5)` changes observable state — it
sets the library-global `rank_zero_only.rank` to its argument and
refreshes the cached `_global_rank` from the session — so not every
shim setter is a no-op. -/
theorem env_setters_noop_claim_false :
    rayEnv_set_global_rank 5 ⟨4, 2, 1, 0⟩ ⟨1, 0, 0⟩ ≠
      (⟨1, 0, 0⟩ : EnvObservableState) := by
  decide

/-- C9 amended: the setters of `RayLightningEnvironment` are no-ops, and
the four accessors of both shims return the value freshly read from the
runtime session, never a cached attribute (they agree on any two cached
states); `RayEnvironment`'s setters, however, refresh the cached
attributes from the live session, and its `set_global_rank` sets the
library-global `rank_zero_only.rank` to its argument. -/
theorem env_shims_live_values (size rank : Nat) (sess : SessionCtx)
    (s s' : EnvObservableState) :
    rayLightningEnv_set_world_size size sess s = s ∧
    rayLightningEnv_set_global_rank rank sess s = s ∧
    rayLightningEnv_world_size sess s = sess.world_size ∧
    rayLightningEnv_global_rank sess s = sess.world_rank ∧
    rayLightningEnv_local_rank sess s = sess.local_rank ∧
    rayLightningEnv_node_rank sess s = sess.node_rank ∧
    rayLightningEnv_world_size sess s = rayLightningEnv_world_size sess s' ∧
    rayLightningEnv_global_rank sess s = rayLightningEnv_global_rank sess s' ∧
    rayLightningEnv_local_rank sess s = rayLightningEnv_local_rank sess s' ∧
    rayLightningEnv_node_rank sess s = rayLightningEnv_node_rank sess s' ∧
    rayEnv_world_size sess s = sess.world_size ∧
    rayEnv_global_rank sess s = sess.world_rank ∧
    rayEnv_local_rank sess s = sess.local_rank ∧
    rayEnv_node_rank sess s = sess.node_rank ∧
    rayEnv_world_size sess s = rayEnv_world_size sess s' ∧
    rayEnv_global_rank sess s = rayEnv_global_rank sess s' ∧
    rayEnv_local_rank sess s = rayEnv_local_rank sess s' ∧
    rayEnv_node_rank sess s = rayEnv_node_rank sess s' ∧
    rayEnv_set_world_size size sess s = { s with ws_attr := sess.world_size } ∧
    rayEnv_set_global_rank rank sess s =
      { s with gr_attr := sess.world_rank, rank_zero_rank := rank } := by
  exact ⟨rfl, rfl, rfl, rfl, rfl, rfl, rfl, rfl, rfl, rfl, rfl, rfl, rfl, rfl,
    rfl, rfl, rfl, rfl, rfl, rfl⟩

/-- C10: `from_path` fails on a nonexistent path (its leading assert
raises), raises a `ValueError` on a directory, and on a file returns a
checkpoint backed by a fresh cache directory holding a copy of the file
under `MODEL_KEY`, plus the serialized preprocessor when one is given. -/
theorem from_path_spec (node : Option FsNode) (preprocessor : Option String) :
    (node = none → ∃ msg, from_path node preprocessor =
      Except.error (.assertionError msg)) ∧
    (∀ entries, node = some (.dirNode entries) → ∃ msg,
      from_path node preprocessor = Except.error (.valueError msg)) ∧
    (∀ content, node = some (.file content) →
      from_path node preprocessor = Except.ok
        (match preprocessor with
         | none => [(MODEL_KEY, content)]
         | some p => [(MODEL_KEY, content), (PREPROCESSOR_FILE, p)])) := by
  refine ⟨?_, ?_, ?_⟩
  · rintro rfl
    exact ⟨_, rfl⟩
  · rintro entries rfl
    exact ⟨_, rfl⟩
  · rintro content rfl
    cases preprocessor <;> rfl

/-- Witness for C10: a missing path, a directory path, and a file path
with a preprocessor. -/
theorem from_path_spec_witness :
    (∃ msg, from_path none none = Except.error (.assertionError msg)) ∧
    (∃ msg, from_path (some (.dirNode [("f", "x")])) none =
      Except.error (.valueError msg)) ∧
    from_path (some (.file "ckpt-bytes")) (some "prep") =
      Except.ok [(MODEL_KEY, "ckpt-bytes"), (PREPROCESSOR_FILE, "prep")] :=
  ⟨(from_path_spec none none).1 rfl,
   (from_path_spec (some (.dirNode [("f", "x")])) none).2.1 [("f", "x")] rfl,
   (from_path_spec (some (.file "ckpt-bytes")) (some "prep")).2.2
     "ckpt-bytes" rfl⟩

end RayTrain
